import Mathlib

set_option maxRecDepth 40000

/-!
Verification development for the Invoice-Agent repository.

The Python sources (`email_monitor.py`, `database_manager.py`) are embedded
shallowly:

* Python strings are `String` over their character lists; the string
  operations used by the code (`lower`, `strip`, `title`, `upper`,
  substring containment, the regular expressions actually occurring in the
  source) are modelled character-exactly for ASCII input, which is the
  alphabet of every claim instance.
* Python floats (IEEE-754 binary64) are modelled exactly: a float value x
  is represented by the integer x * 2^70.  This representation is exact
  for every binary64 value of magnitude at least 2^-18 (and for 0), which
  covers all monetary quantities handled by the program; `roundF` performs
  the round-to-nearest, ties-to-even conversion of a rational n/d into
  this grid, exactly as CPython's `float(...)` and float arithmetic do in
  the normal range.
* The sqlite record store is a pure state (`DB`); each SQL statement of
  the embedded operations becomes the corresponding pure list operation,
  and a whole Python method becomes a state-passing function.
* Textual rendering of float values inside report strings is abstracted
  by printing the scaled integer (`fmtF`); no claim depends on the exact
  digits Python would print there.
-/

/- ===== Python string primitives (ASCII-exact model) ===== -/

/-- ASCII lower-casing of one character, the ASCII fragment of Python
`str.lower`. -/
def pyLowerChar (c : Char) : Char :=
  if 'A' ≤ c ∧ c ≤ 'Z' then Char.ofNat (c.toNat + 32) else c

/-- ASCII upper-casing of one character, the ASCII fragment of Python
`str.upper`. -/
def pyUpperChar (c : Char) : Char :=
  if 'a' ≤ c ∧ c ≤ 'z' then Char.ofNat (c.toNat - 32) else c

/-- Python `str.lower` (ASCII fragment). -/
def pyLowerStr (s : String) : String :=
  String.mk (s.toList.map pyLowerChar)

/-- Python `str.upper` (ASCII fragment). -/
def pyUpperStr (s : String) : String :=
  String.mk (s.toList.map pyUpperChar)

/-- The characters matched by the regex class `\s` (ASCII fragment). -/
def pySpaceChar (c : Char) : Bool :=
  c == ' ' || c == '\t' || c == '\n' || c == '\r' || c == '\x0b' || c == '\x0c'

/-- The characters matched by the regex class `\w` (ASCII fragment). -/
def pyWordChar (c : Char) : Bool :=
  c.isAlpha || c.isDigit || c == '_'

/-- The characters matched by the regex class `\d` (ASCII). -/
def pyDigitChar (c : Char) : Bool :=
  c.isDigit

/-- Python truthiness of an optional string (None and "" are falsy). -/
def truthyStr : Option String → Bool
  | none => false
  | some s => s.length != 0

/-- Python truthiness of an optional float (None and 0.0 are falsy);
floats are scaled integers, see the module doc. -/
def truthyF : Option ℤ → Bool
  | none => false
  | some x => x != 0

/-- Whether `needle` starts `hay` (list version, executable). -/
def listStartsWith : List Char → List Char → Bool
  | [], _ => true
  | _ :: _, [] => false
  | a :: as, b :: bs => a == b && listStartsWith as bs

/-- Python substring containment `needle in hay` on character lists. -/
def hasSubstr (needle : List Char) : List Char → Bool
  | [] => needle.isEmpty
  | c :: rest => listStartsWith needle (c :: rest) || hasSubstr needle rest

/-- Python `str.strip()` (ASCII whitespace fragment). -/
def pyStrip (s : String) : String :=
  String.mk (((s.toList.dropWhile pySpaceChar).reverse.dropWhile pySpaceChar).reverse)

/-- One step of Python `str.title` (ASCII fragment): a letter is
upper-cased when the previous character is not a letter, lower-cased
otherwise. -/
def pyTitleAux : Bool → List Char → List Char
  | _, [] => []
  | prevAlpha, c :: rest =>
    (if c.isAlpha then (if prevAlpha then pyLowerChar c else pyUpperChar c) else c)
      :: pyTitleAux c.isAlpha rest

/-- Python `str.title` (ASCII fragment). -/
def pyTitle (s : String) : String :=
  String.mk (pyTitleAux false s.toList)

/-- Python `str.replace('.', ' ')`. -/
def replDotSpace (s : String) : String :=
  String.mk (s.toList.map (fun c => if c == '.' then ' ' else c))

/-- Whether the character `c` occurs in `s`; models `re.search` with a
single-character class, as the currency-symbol probes of the source do. -/
def hasCharB (s : String) (c : Char) : Bool :=
  s.toList.any (· == c)

/- ===== Exact binary64 model (values scaled by 2^70) ===== -/

/-- Fueled floor of the base-2 logarithm; total and kernel-reducible.
For `1 ≤ n < 2^fuel` it equals the mathematical floor of log2. -/
def log2fuel : ℕ → ℕ → ℕ
  | 0, _ => 0
  | fuel + 1, n => if 2 ≤ n then log2fuel fuel (n / 2) + 1 else 0

/-- Floor of log2 of the positive rational n/d, computed with integer
arithmetic only (exact whenever `1 ≤ n`, `1 ≤ d ≤ 2^200`, `n < 2^290`,
which holds for every use in this development). -/
def dlog2 (n d : ℕ) : ℤ :=
  (log2fuel 500 ((n * 2 ^ 200) / d) : ℤ) - 200

/-- Division of naturals rounded to nearest, ties to even. -/
def halfEvenDiv (t d : ℕ) : ℕ :=
  let m := t / d
  let r := t % d
  if 2 * r < d then m
  else if d < 2 * r then m + 1
  else if m % 2 = 0 then m else m + 1

/-- Round the positive rational n/d to the binary64 grid, returning the
result scaled by 2^70.  The grid step at magnitude `[2^e, 2^(e+1))` is
`2^(e-52)`, i.e. `2^(e+18)` in scaled units; for `e < -18` the model
keeps the 2^-70 resolution (such magnitudes are below every monetary
quantity this program manipulates). -/
def roundPosScaled (n d : ℕ) : ℕ :=
  let e := dlog2 n d
  let g := (e + 18).toNat
  (halfEvenDiv (n * 2 ^ 70) (d * 2 ^ g)) * 2 ^ g

/-- Round the rational n/d (d positive) to binary64, scaled by 2^70:
the model of CPython `float` conversion and of the rounding step of
every float arithmetic operation. -/
def roundF (n : ℤ) (d : ℕ) : ℤ :=
  if n = 0 then 0
  else if 0 < n then (roundPosScaled n.toNat d : ℤ)
  else -(roundPosScaled (-n).toNat d : ℤ)

/-- The binary64 evaluation of Python `abs(a - b)` on two float values
(scaled representation): the difference is rounded, then the exact
absolute value is taken. -/
def pyAbsDiff (a b : ℤ) : ℤ :=
  ((roundF (a - b) (2 ^ 70)).natAbs : ℤ)

/-- The binary64 value of the literal `0.01` (scaled by 2^70). -/
def c001 : ℤ :=
  roundF 1 100

/- ===== Backtracking regex engine =====

Each pattern of the source is compiled by hand into combinators.  A
matcher explores anchored matches at one position; a match state carries
the previously consumed character so that word boundaries `\b` are
context-exact.  Alternatives are produced in Python's backtracking
preference order (alternation left first, greedy quantifiers longest
first, lazy quantifiers shortest first); `re.search` semantics is the
first overall success at the leftmost feasible start position. -/

/-- Matcher state: previously consumed character and remaining input. -/
abbrev MSt : Type := Option Char × List Char

/-- A matcher yields, in preference order, all ways of consuming a prefix
of the remaining input: consumed characters and resulting state. -/
abbrev Mtch : Type := MSt → List (List Char × MSt)

/-- Matcher for the empty pattern. -/
def mEps : Mtch := fun s => [([], s)]

/-- Matcher for a one-character class. -/
def mCls (p : Char → Bool) : Mtch := fun s =>
  match s with
  | (_, []) => []
  | (_, c :: rest) => if p c then [([c], (some c, rest))] else []

/-- Sequencing of matchers, backtracking order preserved. -/
def mSeq (a b : Mtch) : Mtch := fun s =>
  (a s).flatMap (fun x => (b x.2).map (fun y => (x.1 ++ y.1, y.2)))

/-- Ordered alternation of matchers. -/
def mAlt (a b : Mtch) : Mtch := fun s => a s ++ b s

/-- Greedy option `a?` (match first, then skip). -/
def mOpt (a : Mtch) : Mtch := fun s => a s ++ [([], s)]

/-- Sequencing of a list of matchers. -/
def mSeqL (l : List Mtch) : Mtch :=
  l.foldr mSeq mEps

/-- Ordered alternation of a non-empty list of matchers. -/
def mAltL (l : List Mtch) : Mtch :=
  l.foldr mAlt (fun _ => [])

/-- Literal string matcher over a character list, optionally
case-insensitive (ASCII). -/
def mLitAux (ci : Bool) : List Char → Mtch
  | [] => mEps
  | c :: cs =>
    mSeq (mCls (fun x => if ci then pyLowerChar x == pyLowerChar c else x == c)) (mLitAux ci cs)

/-- Literal string matcher, optionally case-insensitive (ASCII). -/
def mLit (ci : Bool) (lit : String) : Mtch :=
  mLitAux ci lit.toList

/-- The previous-character component after consuming `k` characters of
the remaining input of state `s`. -/
def prevAfter (s : MSt) (k : ℕ) : Option Char :=
  if k = 0 then s.1 else s.2[k - 1]?

/-- Greedy star `p*` over a character class: longest run first. -/
def mStarCls (p : Char → Bool) : Mtch := fun s =>
  let n := (s.2.takeWhile p).length
  (List.range (n + 1)).map (fun i =>
    let k := n - i
    (s.2.take k, (prevAfter s k, s.2.drop k)))

/-- Greedy plus `p+` over a character class: longest run first, at least
one character. -/
def mPlusG (p : Char → Bool) : Mtch := fun s =>
  let n := (s.2.takeWhile p).length
  (List.range n).map (fun i =>
    let k := n - i
    (s.2.take k, (prevAfter s k, s.2.drop k)))

/-- Lazy plus `p+?` over a character class: shortest run first. -/
def mPlusLazy (p : Char → Bool) : Mtch := fun s =>
  let n := (s.2.takeWhile p).length
  (List.range n).map (fun i =>
    let k := i + 1
    (s.2.take k, (prevAfter s k, s.2.drop k)))

/-- Greedy bounded repetition `p{lo,hi}` over a character class. -/
def mRepCls (p : Char → Bool) (lo hi : ℕ) : Mtch := fun s =>
  let n := min (s.2.takeWhile p).length hi
  if n < lo then []
  else (List.range (n - lo + 1)).map (fun i =>
    let k := n - i
    (s.2.take k, (prevAfter s k, s.2.drop k)))

/-- Greedy option over a character class. -/
def mOptCls (p : Char → Bool) : Mtch :=
  mOpt (mCls p)

/-- Word-character test on an optional character (absent counts as
non-word, as at the ends of the subject). -/
def isWordOpt : Option Char → Bool
  | none => false
  | some c => pyWordChar c

/-- Word boundary `\b`: succeeds without consuming when exactly one side
of the position is a word character. -/
def mBnd : Mtch := fun s =>
  if isWordOpt s.1 != isWordOpt s.2.head? then [([], s)] else []

/-- Fueled greedy star of an arbitrary matcher (used only for bodies that
consume at least one character, as `(?:,\d{3})*` does); more iterations
are preferred. -/
def mStarFuel (a : Mtch) : ℕ → Mtch
  | 0 => fun s => [([], s)]
  | fuel + 1 => fun s =>
    ((a s).flatMap (fun x =>
      if x.1.isEmpty then []
      else (mStarFuel a fuel x.2).map (fun y => (x.1 ++ y.1, y.2)))) ++ [([], s)]

/-- Greedy star of an arbitrary matcher. -/
def mStarA (a : Mtch) : Mtch := fun s =>
  mStarFuel a (s.2.length + 1) s

/-- Anchored attempt of `pre ++ (group) ++ post` at one position,
returning the first captured group of the first overall success in
backtracking order. -/
def tryAt (pre grp post : Mtch) (s : MSt) : Option (List Char) :=
  (pre s).findSome? (fun x =>
    (grp x.2).findSome? (fun g =>
      if (post g.2).isEmpty then none else some g.1))

/-- `re.search` semantics: leftmost start position, then backtracking
order; returns the captured group. -/
def searchFrom (pre grp post : Mtch) : Option Char → List Char → Option (List Char)
  | pc, [] => tryAt pre grp post (pc, [])
  | pc, c :: rest =>
    match tryAt pre grp post (pc, c :: rest) with
    | some g => some g
    | none => searchFrom pre grp post (some c) rest

/-- Search a string for `pre (grp) post`, returning the captured group. -/
def reSearch (pre grp post : Mtch) (s : String) : Option String :=
  (searchFrom pre grp post none s.toList).map (fun l => String.mk l)

/-- Existence-only search for a pattern. -/
def reTest (pat : Mtch) (s : String) : Bool :=
  (reSearch pat mEps mEps s).isSome

/- ===== email_monitor.py : invoice detector ===== -/

/-- The keyword vocabulary of `InvoiceMonitor.is_potential_invoice`
(email_monitor.py lines 145-153), verbatim, including the two
upper-cased entries that can never occur in a lower-cased text. -/
def invoice_keywords : List String :=
  [ "invoice", "bill", "receipt", "statement",
    "total amount", "due date", "tax invoice",
    "payment due", "charges", "order number",
    "balance due", "purchase order", "VAT", "GST",
    "invoice number", "invoice date", "billing date",
    "payment terms", "subtotal", "total due", "amount due",
    "invoice total", "account number", "customer id" ]

/-- The keyword count of `is_potential_invoice`: number of distinct
vocabulary entries occurring in the lower-cased text. -/
def keywordMatches (text : String) : ℕ :=
  invoice_keywords.countP (fun k => hasSubstr k.toList (pyLowerStr text).toList)

/-- The pattern `invoice\s*#\s*\w+` of the detector, run on the
lower-cased text. -/
def patDetectInvoice (tl : String) : Bool :=
  reTest (mSeqL [ mLit false "invoice", mStarCls pySpaceChar, mCls (· == '#'),
                  mStarCls pySpaceChar, mPlusG pyWordChar ]) tl

/-- The pattern `total\s*[:$]?\s*\d+` of the detector, run on the
lower-cased text. -/
def patDetectTotal (tl : String) : Bool :=
  reTest (mSeqL [ mLit false "total", mStarCls pySpaceChar,
                  mOptCls (fun c => c == ':' || c == '$'),
                  mStarCls pySpaceChar, mPlusG pyDigitChar ]) tl

/-- Embedding of `InvoiceMonitor.is_potential_invoice`
(email_monitor.py lines 135-166). -/
def is_potential_invoice (text : String) : Bool :=
  let text_lower := pyLowerStr text
  let keyword_matches := keywordMatches text
  if 3 ≤ keyword_matches then true
  else if 2 ≤ keyword_matches ∧
          (["invoice number", "purchase order", "total amount"].any
            (fun k => hasSubstr k.toList text_lower.toList)) = true then true
  else if (patDetectInvoice text_lower && patDetectTotal text_lower) = true then true
  else false

/- ===== email_monitor.py : field extractor patterns ===== -/

/-- Character class `[.:\s]`. -/
def clsDotColonSpace (c : Char) : Bool :=
  c == '.' || c == ':' || pySpaceChar c

/-- Character class `[.:\s#]`. -/
def clsDotColonSpaceHash (c : Char) : Bool :=
  clsDotColonSpace c || c == '#'

/-- Character class `[$€£]`. -/
def clsCurrencySym (c : Char) : Bool :=
  c == '$' || c == '€' || c == '£'

/-- Character class `[-\w]`. -/
def clsWordDash (c : Char) : Bool :=
  pyWordChar c || c == '-'

/-- Character class `[A-Za-z0-9\s.,&]` of the vendor pattern. -/
def clsVendor (c : Char) : Bool :=
  c.isAlpha || c.isDigit || pySpaceChar c || c == '.' || c == ',' || c == '&'

/-- Character class matching a dash or a slash in the date patterns. -/
def clsDashSlash (c : Char) : Bool :=
  c == '-' || c == '/'

/-- The capture group `(\d+(?:,\d{3})*(?:\.\d{2})?)` of every monetary
pattern. -/
def grpNumber : Mtch :=
  mSeqL [ mPlusG pyDigitChar,
          mStarA (mSeq (mCls (· == ',')) (mRepCls pyDigitChar 3 3)),
          mOpt (mSeq (mCls (· == '.')) (mRepCls pyDigitChar 2 2)) ]

/-- The alternative date group: one or two digits, dash or slash, one or
two digits, dash or slash, two to four digits; or a word, spaces, one or
two digits, optional comma, spaces, four digits. -/
def grpDateAlt : Mtch :=
  mAlt
    (mSeqL [ mRepCls pyDigitChar 1 2, mCls clsDashSlash, mRepCls pyDigitChar 1 2,
             mCls clsDashSlash, mRepCls pyDigitChar 2 4 ])
    (mSeqL [ mPlusG pyWordChar, mPlusG pySpaceChar, mRepCls pyDigitChar 1 2,
             mOptCls (· == ','), mPlusG pySpaceChar, mRepCls pyDigitChar 4 4 ])

/-- `re.search(r'invoice\s*#\s*(\w+)', text, re.IGNORECASE)`
(email_monitor.py line 336). -/
def patInvoiceNum (t : String) : Option String :=
  reSearch (mSeqL [ mLit true "invoice", mStarCls pySpaceChar, mCls (· == '#'),
                    mStarCls pySpaceChar ])
    (mPlusG pyWordChar) mEps t

/-- `re.search(r'invoice\s*(?:no|number|num)[.:\s]*(\w+[-\w]*)', text,
re.IGNORECASE)` (email_monitor.py line 341). -/
def patInvoiceNumAlt (t : String) : Option String :=
  reSearch (mSeqL [ mLit true "invoice", mStarCls pySpaceChar,
                    mAltL [mLit true "no", mLit true "number", mLit true "num"],
                    mStarCls clsDotColonSpace ])
    (mSeq (mPlusG pyWordChar) (mStarCls clsWordDash)) mEps t

/-- `re.search(r'purchase\s*order\s*#\s*(\w+)', text, re.IGNORECASE)`
(email_monitor.py line 346). -/
def patPONum (t : String) : Option String :=
  reSearch (mSeqL [ mLit true "purchase", mStarCls pySpaceChar, mLit true "order",
                    mStarCls pySpaceChar, mCls (· == '#'), mStarCls pySpaceChar ])
    (mPlusG pyWordChar) mEps t

/-- `re.search(r'(?:po|p\.o\.|purchase\s*order)[.:\s#]*(\w+[-\w]*)', text,
re.IGNORECASE)` (email_monitor.py line 351). -/
def patPONumAlt (t : String) : Option String :=
  reSearch (mSeqL [ mAltL [ mLit true "po", mLit true "p.o.",
                            mSeqL [mLit true "purchase", mStarCls pySpaceChar, mLit true "order"] ],
                    mStarCls clsDotColonSpaceHash ])
    (mSeq (mPlusG pyWordChar) (mStarCls clsWordDash)) mEps t

/-- `re.search(r'total\s*amount\s*[:$]?\s*(\d+(?:,\d{3})*(?:\.\d{2})?)',
text, re.IGNORECASE)` (email_monitor.py line 356). -/
def patTotalAmount (t : String) : Option String :=
  reSearch (mSeqL [ mLit true "total", mStarCls pySpaceChar, mLit true "amount",
                    mStarCls pySpaceChar, mOptCls (fun c => c == ':' || c == '$'),
                    mStarCls pySpaceChar ])
    grpNumber mEps t

/-- `re.search(r'(?:total|amount\s*due|balance\s*due|grand\s*total)[.:\s]*[$€£]?\s*(...)',
text, re.IGNORECASE)` with the monetary number group
(email_monitor.py line 361). -/
def patTotalAmountAlt (t : String) : Option String :=
  reSearch (mSeqL [ mAltL [ mLit true "total",
                            mSeqL [mLit true "amount", mStarCls pySpaceChar, mLit true "due"],
                            mSeqL [mLit true "balance", mStarCls pySpaceChar, mLit true "due"],
                            mSeqL [mLit true "grand", mStarCls pySpaceChar, mLit true "total"] ],
                    mStarCls clsDotColonSpace, mOptCls clsCurrencySym,
                    mStarCls pySpaceChar ])
    grpNumber mEps t

/-- `re.search(r'\b\d{1,2}/\d{1,2}/\d{4}\b', text)` taking `group(0)`
(email_monitor.py line 366). -/
def patDatePrimary (t : String) : Option String :=
  reSearch mEps
    (mSeqL [ mBnd, mRepCls pyDigitChar 1 2, mCls (· == '/'), mRepCls pyDigitChar 1 2,
             mCls (· == '/'), mRepCls pyDigitChar 4 4, mBnd ])
    mEps t

/-- `re.search(r'(?:invoice|bill|statement)\s*date[.:\s]*(...)', text,
re.IGNORECASE)` with the alternative date group
(email_monitor.py line 371). -/
def patDateAlt (t : String) : Option String :=
  reSearch (mSeqL [ mAltL [mLit true "invoice", mLit true "bill", mLit true "statement"],
                    mStarCls pySpaceChar, mLit true "date", mStarCls clsDotColonSpace ])
    grpDateAlt mEps t

/-- `re.search(r'(?:vendor|supplier|from|bill\s*from|sold\s*by)[.:\s]*([A-Za-z0-9\s.,&]+?)(?:\n|Inc\.|\bLLC\b|\bLtd\b|\bCorp\.?\b)',
text, re.IGNORECASE)` (email_monitor.py line 376). -/
def patVendor (t : String) : Option String :=
  reSearch (mSeqL [ mAltL [ mLit true "vendor", mLit true "supplier", mLit true "from",
                            mSeqL [mLit true "bill", mStarCls pySpaceChar, mLit true "from"],
                            mSeqL [mLit true "sold", mStarCls pySpaceChar, mLit true "by"] ],
                    mStarCls clsDotColonSpace ])
    (mPlusLazy clsVendor)
    (mAltL [ mCls (· == '\n'), mLit true "inc.",
             mSeqL [mBnd, mLit true "llc", mBnd],
             mSeqL [mBnd, mLit true "ltd", mBnd],
             mSeqL [mBnd, mLit true "corp", mOptCls (· == '.'), mBnd] ]) t

/-- `re.search(r'([^<@]+)@', email_sender)` (email_monitor.py line 381). -/
def patSender (t : String) : Option String :=
  reSearch mEps (mPlusG (fun c => !(c == '<' || c == '@'))) (mCls (· == '@')) t

/-- `re.search(r'(?:due|payment\s*due|due\s*date)[.:\s]*(...)', text,
re.IGNORECASE)` with the alternative date group
(email_monitor.py line 386). -/
def patDueDate (t : String) : Option String :=
  reSearch (mSeqL [ mAltL [ mLit true "due",
                            mSeqL [mLit true "payment", mStarCls pySpaceChar, mLit true "due"],
                            mSeqL [mLit true "due", mStarCls pySpaceChar, mLit true "date"] ],
                    mStarCls clsDotColonSpace ])
    grpDateAlt mEps t

/-- `re.search(r'(?:tax|vat|gst)[.:\s]*[$€£]?\s*(...)', text,
re.IGNORECASE)` with the monetary number group
(email_monitor.py line 391). -/
def patTax (t : String) : Option String :=
  reSearch (mSeqL [ mAltL [mLit true "tax", mLit true "vat", mLit true "gst"],
                    mStarCls clsDotColonSpace, mOptCls clsCurrencySym,
                    mStarCls pySpaceChar ])
    grpNumber mEps t

/-- `re.search(r'(?:subtotal|sub\s*total)[.:\s]*[$€£]?\s*(...)', text,
re.IGNORECASE)` with the monetary number group
(email_monitor.py line 396). -/
def patSubtotal (t : String) : Option String :=
  reSearch (mSeqL [ mAltL [ mLit true "subtotal",
                            mSeqL [mLit true "sub", mStarCls pySpaceChar, mLit true "total"] ],
                    mStarCls clsDotColonSpace, mOptCls clsCurrencySym,
                    mStarCls pySpaceChar ])
    grpNumber mEps t

/-- `re.search(r'(?:currency|in)[.:\s]*(USD|EUR|GBP|JPY|CAD|AUD|CHF)', text,
re.IGNORECASE)` (email_monitor.py line 401). -/
def patCurrency (t : String) : Option String :=
  reSearch (mSeqL [ mAltL [mLit true "currency", mLit true "in"], mStarCls clsDotColonSpace ])
    (mAltL [ mLit true "USD", mLit true "EUR", mLit true "GBP", mLit true "JPY",
             mLit true "CAD", mLit true "AUD", mLit true "CHF" ]) mEps t

/- ===== email_monitor.py : field extractor ===== -/

/-- Numeric value of a digit list in base 10. -/
def digitsVal (cs : List Char) : ℕ :=
  cs.foldl (fun a c => a * 10 + (c.toNat - 48)) 0

/-- Python `s.replace(',', '')` on a matched monetary group. -/
def stripCommas (s : String) : String :=
  String.mk (s.toList.filter (fun c => !(c == ',')))

/-- CPython `float(...)` applied to a decimal numeral `digits(.dd)?`:
exact decimal value rounded to binary64 (scaled representation). -/
def decToScaled (s : String) : ℤ :=
  let cs := s.toList
  let ip := cs.takeWhile (fun c => !(c == '.'))
  let fracDigits := (cs.dropWhile (fun c => !(c == '.'))).drop 1
  let den : ℕ := 10 ^ fracDigits.length
  roundF ((digitsVal ip : ℤ) * (den : ℤ) + (digitsVal fracDigits : ℤ)) den

/-- `float(match.group(1).replace(',', ''))` of the source. -/
def pyFloatOfGroup (g : String) : ℤ :=
  decToScaled (stripCommas g)

/-- Vendor name derived from the email sender when the vendor pattern
fails (email_monitor.py lines 379-383), including the Python truthiness
test `elif email_sender:`. -/
def senderVendor : Option String → Option String
  | none => none
  | some snd =>
    if snd.length != 0 then (patSender snd).map (fun m => pyTitle (replDotSpace m))
    else none

/-- The dictionary produced by
`InvoiceMonitor.extract_invoice_details_from_text`; float-valued fields
use the scaled binary64 representation. -/
structure InvoiceDetails where
  invoice_number : Option String
  purchase_order : Option String
  total_amount : Option ℤ
  invoice_date : Option String
  file_path : Option String
  vendor_name : Option String
  due_date : Option String
  tax_amount : Option ℤ
  subtotal : Option ℤ
  currency : String
  status : String
  extracted_from : String
deriving DecidableEq

/-- Embedding of `InvoiceMonitor.extract_invoice_details_from_text`
(email_monitor.py lines 307-411): primary pattern first, fallback on
failure, field left `none` when both fail; `currency` defaults to USD,
`status` to pending.  The `email_subject` argument is accepted and
ignored, exactly as in the source. -/
def extract_invoice_details_from_text (text : String)
    (filepath _email_subject email_sender : Option String) : InvoiceDetails :=
  { invoice_number :=
      match patInvoiceNum text with
      | some v => some v
      | none => patInvoiceNumAlt text
  , purchase_order :=
      match patPONum text with
      | some v => some v
      | none => patPONumAlt text
  , total_amount :=
      match patTotalAmount text with
      | some v => some (pyFloatOfGroup v)
      | none => (patTotalAmountAlt text).map pyFloatOfGroup
  , invoice_date :=
      match patDatePrimary text with
      | some v => some v
      | none => patDateAlt text
  , file_path := filepath
  , vendor_name :=
      match patVendor text with
      | some v => some (pyStrip v)
      | none => senderVendor email_sender
  , due_date := patDueDate text
  , tax_amount := (patTax text).map pyFloatOfGroup
  , subtotal := (patSubtotal text).map pyFloatOfGroup
  , currency :=
      match patCurrency text with
      | some v => pyUpperStr v
      | none =>
        if hasCharB text '$' then "USD"
        else if hasCharB text '€' then "EUR"
        else if hasCharB text '£' then "GBP"
        else "USD"
  , status := "pending"
  , extracted_from := "email_attachment" }

/- ===== database_manager.py : record store model ===== -/

/-- Row of the `purchase_orders` table (database_manager.py lines 37-47);
`created_at` is irrelevant to every claim and omitted; `total_amount` is
a nullable REAL, i.e. an optional binary64 value in scaled
representation. -/
structure PurchaseOrder where
  id : ℕ
  po_number : Option String
  vendor_name : Option String
  issue_date : Option String
  total_amount : Option ℤ
  status : String
deriving DecidableEq

/-- Row of the `invoices` table (database_manager.py lines 50-64). -/
structure Invoice where
  id : ℕ
  invoice_number : Option String
  po_number : Option String
  vendor_name : Option String
  invoice_date : Option String
  total_amount : Option ℤ
  file_path : Option String
  status : String
  validation_result : Option String
deriving DecidableEq

/-- Row of the `validation_reports` table
(database_manager.py lines 67-77). -/
structure ValidationReport where
  id : ℕ
  invoice_id : ℕ
  report_content : String
  discrepancies : Option String
  approval_status : String
deriving DecidableEq

/-- The sqlite database state; `nextReportId` models the AUTOINCREMENT
rowid counter of `validation_reports` that feeds `cursor.lastrowid`. -/
structure DB where
  purchase_orders : List PurchaseOrder
  invoices : List Invoice
  validation_reports : List ValidationReport
  nextReportId : ℕ
deriving DecidableEq

/-- A discrepancy dictionary built by `validate_invoice`: either the
vendor-name kind (lines 606-610) or the amount kind carrying the
computed absolute difference (lines 613-618). -/
inductive Discrepancy where
  | vendor (po_value invoice_value : String)
  | amount (po_value invoice_value difference : ℤ)
deriving DecidableEq

/-- Whether a discrepancy is of the amount kind. -/
def isAmountD : Discrepancy → Bool
  | Discrepancy.amount _ _ _ => true
  | _ => false

/-- Whether a discrepancy is of the vendor kind. -/
def isVendorD : Discrepancy → Bool
  | Discrepancy.vendor _ _ => true
  | _ => false

/-- The discrepancy computation of `validate_invoice`
(database_manager.py lines 602-618): Python truthiness guards both
comparisons, vendor names are compared by `lower()` only (no stripping),
amounts by binary64 `abs(po - inv) > 0.01`. -/
def check_discrepancies (po_vendor invoice_vendor : Option String)
    (po_amount invoice_amount : Option ℤ) : List Discrepancy :=
  (if truthyStr po_vendor && truthyStr invoice_vendor &&
      (pyLowerStr (po_vendor.getD "") != pyLowerStr (invoice_vendor.getD ""))
   then [Discrepancy.vendor (po_vendor.getD "") (invoice_vendor.getD "")] else [])
  ++
  (if truthyF po_amount && truthyF invoice_amount &&
      decide (c001 < pyAbsDiff (po_amount.getD 0) (invoice_amount.getD 0))
   then [Discrepancy.amount (po_amount.getD 0) (invoice_amount.getD 0)
           (pyAbsDiff (po_amount.getD 0) (invoice_amount.getD 0))] else [])

/-- Rendering of a float value inside report text; abstraction of
Python float formatting (prints the scaled integer; no claim inspects
these digits). -/
def fmtF (x : ℤ) : String :=
  toString x

/-- Python string interpolation of an optional string (None prints as
the four letters None). -/
def showOptStr : Option String → String
  | none => "None"
  | some s => s

/-- Python string interpolation of an optional float value. -/
def showOptF : Option ℤ → String
  | none => "None"
  | some x => fmtF x

/-- Embedding of `DatabaseManager._format_discrepancies`
(database_manager.py lines 227-247); the field names of the two
discrepancy kinds are fixed, so the `replace`/`title` transformation is
rendered directly. -/
def format_discrepancies (ds : List Discrepancy) : String :=
  if ds.isEmpty then "None found"
  else String.intercalate "\n" (ds.map (fun d =>
    match d with
    | Discrepancy.vendor pv iv =>
      "- Vendor Name: PO: " ++ pv ++ " vs Invoice: " ++ iv
    | Discrepancy.amount pv iv df =>
      "- Total Amount: PO: $" ++ fmtF pv ++ " vs Invoice: $" ++ fmtF iv ++
        " (Difference: $" ++ fmtF df ++ ")"))

/-- The report body built by `validate_invoice`
(database_manager.py lines 635-650); the leading indentation of the
Python triple-quoted string is not reproduced. -/
def buildReportContent (invoice_number po_number invoice_vendor po_vendor : Option String)
    (invoice_amount po_amount : Option ℤ) (status : String) (ds : List Discrepancy) : String :=
  "\nInvoice Validation Report\n-------------------------\nInvoice Number: " ++
    showOptStr invoice_number ++ "\nPurchase Order: " ++ showOptStr po_number ++
    "\nValidation Status: " ++ status ++ "\n\nDetails:\n- Invoice Vendor: " ++
    showOptStr invoice_vendor ++ "\n- PO Vendor: " ++ showOptStr po_vendor ++
    "\n- Invoice Amount: $" ++ showOptF invoice_amount ++ "\n- PO Amount: $" ++
    showOptF po_amount ++ "\n\nDiscrepancies:\n" ++
    (if ds.isEmpty then "None found" else format_discrepancies ds) ++ "\n"

/-- Textual abstraction of Python `str(discrepancies)` stored in the
`discrepancies` column (database_manager.py line 658); every claim uses
only its presence or absence. -/
def fmtPyDiscList (ds : List Discrepancy) : String :=
  "[" ++ String.intercalate ", " (ds.map (fun d =>
    match d with
    | Discrepancy.vendor pv iv => "vendor_name " ++ pv ++ " | " ++ iv
    | Discrepancy.amount pv iv df =>
      "total_amount " ++ fmtF pv ++ " | " ++ fmtF iv ++ " | " ++ fmtF df)) ++ "]"

/-- `SELECT ... FROM invoices WHERE id = ?` with `fetchone()`. -/
def findInvoice (db : DB) (iid : ℕ) : Option Invoice :=
  db.invoices.find? (fun i => i.id == iid)

/-- `SELECT ... FROM purchase_orders WHERE po_number = ?` with
`fetchone()`; a NULL invoice `po_number` matches no row, as in SQL. -/
def findPO (db : DB) (pn : Option String) : Option PurchaseOrder :=
  match pn with
  | none => none
  | some p => db.purchase_orders.find? (fun po => po.po_number == some p)

/-- Result of `DatabaseManager.validate_invoice`: the Python `None`
return for a missing invoice row, the error dictionary, or the success
dictionary with status, ids, discrepancy list and report text. -/
inductive VRes where
  | noInvoice
  | error (message : String)
  | success (status : String) (invoice_id report_id : ℕ)
      (discrepancies : List Discrepancy) (report_content : String)
deriving DecidableEq

/-- The discrepancy list carried by a reconciliation result. -/
def VRes.discs : VRes → List Discrepancy
  | VRes.success _ _ _ ds _ => ds
  | _ => []

/-- The status string carried by a reconciliation result. -/
def VRes.vstatus : VRes → String
  | VRes.success st _ _ _ _ => st
  | VRes.error _ => "error"
  | VRes.noInvoice => ""

/-- Embedding of `DatabaseManager.validate_invoice` on an integer
invoice identifier (database_manager.py lines 547-683; the string-
identifier branch only resolves the number to this id first).  The
email notification at lines 674-675 is an external side effect with no
record-store footprint and is not part of the state. -/
def validate_invoice (db : DB) (invoice_id : ℕ) : VRes × DB :=
  match findInvoice db invoice_id with
  | none => (VRes.noInvoice, db)
  | some inv =>
    match findPO db inv.po_number with
    | none =>
      (VRes.error "Purchase order not found",
       { db with invoices := db.invoices.map (fun i =>
           if i.id == invoice_id then
             { i with status := "error", validation_result := some "Purchase order not found" }
           else i) })
    | some po =>
      let ds := check_discrepancies po.vendor_name inv.vendor_name po.total_amount inv.total_amount
      let status := if !ds.isEmpty then "discrepancies_found" else "validated"
      let vtext := if !ds.isEmpty then "Discrepancies found between invoice and purchase order"
                   else "Invoice matches purchase order"
      let content := buildReportContent inv.invoice_number inv.po_number inv.vendor_name
                       po.vendor_name inv.total_amount po.total_amount status ds
      let rep : ValidationReport :=
        { id := db.nextReportId
        , invoice_id := invoice_id
        , report_content := content
        , discrepancies := if !ds.isEmpty then some (fmtPyDiscList ds) else none
        , approval_status := if !ds.isEmpty then "requires_approval" else "auto_approved" }
      (VRes.success status invoice_id db.nextReportId ds content,
       { db with
           invoices := db.invoices.map (fun i =>
             if i.id == invoice_id then
               { i with status := status, validation_result := some vtext }
             else i)
         , validation_reports := db.validation_reports ++ [rep]
         , nextReportId := db.nextReportId + 1 })

/-- Embedding of `DatabaseManager.update_approval_status`
(database_manager.py lines 294-340).  When the report id resolves to no
row, `fetchone()[0]` raises, the transaction is never committed and the
connection is closed, so the zero-row UPDATE is rolled back: the state
is unchanged and the method returns False. -/
def update_approval_status (db : DB) (report_id : ℕ) (approval_status : String)
    (comments : Option String) : Bool × DB :=
  let appendText :=
    match comments with
    | some c => if c.length != 0 then "\n\nApprover Comments: " ++ c
                else "\n\nApproved without comments"
    | none => "\n\nApproved without comments"
  match db.validation_reports.find? (fun r => r.id == report_id) with
  | none => (false, db)
  | some r =>
    let newInvStatus := if approval_status == "approved" then "approved" else "rejected"
    (true,
     { db with
         validation_reports := db.validation_reports.map (fun x =>
           if x.id == report_id then
             { x with approval_status := approval_status
                    , report_content := x.report_content ++ appendText }
           else x)
       , invoices := db.invoices.map (fun i =>
           if i.id == r.invoice_id then { i with status := newInvStatus } else i) })

/-- The approval status of the stored report with the given id. -/
def getReportStatus (db : DB) (report_id : ℕ) : Option String :=
  (db.validation_reports.find? (fun r => r.id == report_id)).map (fun r => r.approval_status)

/-- The status of the stored invoice with the given id. -/
def getInvoiceStatus (db : DB) (iid : ℕ) : Option String :=
  (db.invoices.find? (fun i => i.id == iid)).map (fun i => i.status)

/- ===== Concrete instances used by the claim theorems ===== -/

/-- A stored purchase order with amount 100.00 and vendor Acme. -/
def poAcme100 : PurchaseOrder :=
  { id := 1, po_number := some "PO1", vendor_name := some "Acme"
  , issue_date := some "2025-01-01", total_amount := some (roundF 100 1)
  , status := "active" }

/-- An invoice for `PO1` with amount 100.01 (binary64) and vendor Acme. -/
def invAcme10001 : Invoice :=
  { id := 1, invoice_number := some "INV1", po_number := some "PO1"
  , vendor_name := some "Acme", invoice_date := some "2025-01-02"
  , total_amount := some (roundF 10001 100), file_path := some "a.pdf"
  , status := "pending", validation_result := none }

/-- Database holding PO 100.00 against invoice 100.01. -/
def dbC1a : DB :=
  { purchase_orders := [poAcme100], invoices := [invAcme10001]
  , validation_reports := [], nextReportId := 1 }

/-- Database holding PO 100.00 against invoice 100.02. -/
def dbC1b : DB :=
  { purchase_orders := [poAcme100]
  , invoices := [{ invAcme10001 with total_amount := some (roundF 10002 100) }]
  , validation_reports := [], nextReportId := 1 }

/-- A stored purchase order with vendor `ABC Supplies` and amount 500. -/
def poABC : PurchaseOrder :=
  { id := 1, po_number := some "PO1", vendor_name := some "ABC Supplies"
  , issue_date := some "2025-01-01", total_amount := some (roundF 500 1)
  , status := "active" }

/-- An invoice against `poABC` with the same amount and a vendor slot to
be varied. -/
def invVendor (v : String) : Invoice :=
  { id := 1, invoice_number := some "INV1", po_number := some "PO1"
  , vendor_name := some v, invoice_date := some "2025-01-02"
  , total_amount := some (roundF 500 1), file_path := some "a.pdf"
  , status := "pending", validation_result := none }

/-- Database pairing vendor `ABC Supplies` with an invoice vendor. -/
def dbVendor (v : String) : DB :=
  { purchase_orders := [poABC], invoices := [invVendor v]
  , validation_reports := [], nextReportId := 1 }

/-- Database pairing a PO of amount 0.00 with an invoice of amount
999999.00, same vendor. -/
def dbC10 : DB :=
  { purchase_orders := [{ poAcme100 with total_amount := some (roundF 0 1) }]
  , invoices := [{ invAcme10001 with total_amount := some (roundF 999999 1) }]
  , validation_reports := [], nextReportId := 1 }

/-- An invoice whose `po_number` resolves to no stored purchase order. -/
def invC3 : Invoice :=
  { id := 1, invoice_number := some "INV9", po_number := some "PO9"
  , vendor_name := some "Acme", invoice_date := some "2025-01-02"
  , total_amount := some (roundF 100 1), file_path := some "b.pdf"
  , status := "pending", validation_result := none }

/-- Database with `invC3` and an empty purchase-order table. -/
def dbC3 : DB :=
  { purchase_orders := [], invoices := [invC3]
  , validation_reports := [], nextReportId := 1 }

/-- A pre-existing stored validation report. -/
def repPrev : ValidationReport :=
  { id := 1, invoice_id := 1, report_content := "previous report"
  , discrepancies := some "d", approval_status := "requires_approval" }

/-- Database with one stored report and one invoice, used to exercise
the approval-decision operation and the no-invoice branch of
reconciliation. -/
def dbC8 : DB :=
  { purchase_orders := [], invoices := [invC3]
  , validation_reports := [repPrev], nextReportId := 2 }

/-- The empty database. -/
def dbEmpty : DB :=
  { purchase_orders := [], invoices := [], validation_reports := [], nextReportId := 1 }

/-- The worked example text of the specification for field extraction. -/
def c6text : String :=
  "Invoice # 4412 ... Total Amount: $1,250.00"

/-- A text with a single matched keyword that still satisfies both
detector regexes. -/
def c5text : String :=
  "invoice # 5 total: 123"

/- ===== Shared lemmas ===== -/

/-- Updating, via `map`, exactly the rows whose key matches leaves
`find?` pointing at the updated image of the row it found before, when
the update preserves the key. -/
theorem find?_map_keyed {α : Type} (key : α → ℕ) (k : ℕ) (f : α → α)
    (hf : ∀ a, key (f a) = key a) (l : List α) (r : α)
    (h : l.find? (fun x => key x == k) = some r) :
    (l.map (fun x => if key x == k then f x else x)).find? (fun x => key x == k) = some (f r) := by
  induction l with
  | nil => simp [List.find?] at h
  | cons a t ih =>
    cases hp : (key a == k) with
    | true =>
      simp only [List.find?, hp] at h
      have hr : a = r := Option.some.inj h
      subst hr
      simp [List.find?, List.map_cons, hp, hf a]
    | false =>
      simp only [List.find?, hp] at h
      simp only [List.map_cons]
      have hcond : (if key a == k then f a else a) = a := by simp [hp]
      rw [hcond]
      simp only [List.find?, hp]
      exact ih h

/- ===== Claim theorems ===== -/

/-- Claim C7 (confirmed): the approval decision operation invoked with a
report id that resolves to no stored ValidationReport returns failure
and leaves the whole stored state unchanged — no report content, report
approval status, or invoice status is mutated. -/
theorem C7_unknown_report_no_mutation (db : DB) (report_id : ℕ)
    (approval_status : String) (comments : Option String)
    (h : db.validation_reports.find? (fun x => x.id == report_id) = none) :
    update_approval_status db report_id approval_status comments = (false, db) := by
  unfold update_approval_status
  rw [h]

/-- Witness for C7: deciding on report id 7 of the empty store fails and
mutates nothing. -/
theorem C7_unknown_report_witness :
    dbEmpty.validation_reports.find? (fun x => x.id == 7) = none ∧
    update_approval_status dbEmpty 7 "approved" none = (false, dbEmpty) :=
  ⟨rfl, C7_unknown_report_no_mutation dbEmpty 7 "approved" none rfl⟩

/-- Claim C3 (confirmed): when reconciliation runs on an invoice whose
`po_number` resolves to no stored purchase order, the invoice status is
set to error with validation result Purchase order not found, an
error-kind result is returned, and no ValidationReport row is created
for that run. -/
theorem C3_po_not_found (db : DB) (iid : ℕ) (inv : Invoice)
    (h1 : findInvoice db iid = some inv)
    (h2 : findPO db inv.po_number = none) :
    (validate_invoice db iid).1 = VRes.error "Purchase order not found" ∧
    (validate_invoice db iid).2.validation_reports = db.validation_reports ∧
    findInvoice (validate_invoice db iid).2 iid =
      some { inv with status := "error"
                    , validation_result := some "Purchase order not found" } := by
  unfold validate_invoice
  rw [h1]
  dsimp only
  rw [h2]
  refine ⟨rfl, rfl, ?_⟩
  unfold findInvoice at h1 ⊢
  exact find?_map_keyed Invoice.id iid
    (fun i => { i with status := "error"
                     , validation_result := some "Purchase order not found" })
    (fun a => rfl) db.invoices inv h1

/-- Witness for C3: the concrete invoice of `dbC3` references `PO9`,
which resolves to nothing. -/
theorem C3_po_not_found_witness :
    findInvoice dbC3 1 = some invC3 ∧
    findPO dbC3 invC3.po_number = none ∧
    (validate_invoice dbC3 1).1 = VRes.error "Purchase order not found" ∧
    (validate_invoice dbC3 1).2.validation_reports = dbC3.validation_reports ∧
    findInvoice (validate_invoice dbC3 1).2 1 =
      some { invC3 with status := "error"
                      , validation_result := some "Purchase order not found" } := by
  refine ⟨rfl, rfl, ?_⟩
  exact C3_po_not_found dbC3 1 invC3 rfl rfl

/-- Claim C8 (confirmed): deciding twice on the same resolvable report
with two different decisions leaves the report approval status equal to
the second decision and the owning invoice status mirroring it — the
second call overwrites the first even though the first decision was
terminal. -/
theorem C8_second_decision_wins (db : DB) (rid : ℕ) (r : ValidationReport) (inv : Invoice)
    (d1 d2 : String) (c1 c2 : Option String)
    (hr : db.validation_reports.find? (fun x => x.id == rid) = some r)
    (hi : db.invoices.find? (fun x => x.id == r.invoice_id) = some inv)
    (hd1 : d1 = "approved" ∨ d1 = "rejected")
    (hd2 : d2 = "approved" ∨ d2 = "rejected")
    (hne : d1 ≠ d2) :
    (update_approval_status db rid d1 c1).1 = true ∧
    (update_approval_status (update_approval_status db rid d1 c1).2 rid d2 c2).1 = true ∧
    getReportStatus (update_approval_status (update_approval_status db rid d1 c1).2 rid d2 c2).2 rid
      = some d2 ∧
    getInvoiceStatus (update_approval_status (update_approval_status db rid d1 c1).2 rid d2 c2).2
      r.invoice_id = some d2 := by
  have hmir : (if d2 == "approved" then "approved" else "rejected") = d2 := by
    rcases hd2 with h | h <;> subst h <;> rfl
  have hrep1 := find?_map_keyed ValidationReport.id rid
    (fun x => { x with approval_status := d1
                     , report_content := x.report_content ++
                         (match c1 with
                          | some c => if c.length != 0 then "\n\nApprover Comments: " ++ c
                                      else "\n\nApproved without comments"
                          | none => "\n\nApproved without comments") })
    (fun a => rfl) db.validation_reports r hr
  have hinv1 := find?_map_keyed Invoice.id r.invoice_id
    (fun i => { i with status := if d1 == "approved" then "approved" else "rejected" })
    (fun a => rfl) db.invoices inv hi
  dsimp only at hrep1 hinv1
  unfold update_approval_status
  rw [hr]
  dsimp only
  refine ⟨rfl, ?_⟩
  rw [hrep1]
  dsimp only
  refine ⟨rfl, ?_, ?_⟩
  · unfold getReportStatus
    have hrep2 := find?_map_keyed ValidationReport.id rid
      (fun x => { x with approval_status := d2
                       , report_content := x.report_content ++
                           (match c2 with
                            | some c => if c.length != 0 then "\n\nApprover Comments: " ++ c
                                        else "\n\nApproved without comments"
                            | none => "\n\nApproved without comments") })
      (fun a => rfl) _ _ hrep1
    dsimp only at hrep2
    rw [hrep2]
    rfl
  · unfold getInvoiceStatus
    have hinv2 := find?_map_keyed Invoice.id r.invoice_id
      (fun i => { i with status := if d2 == "approved" then "approved" else "rejected" })
      (fun a => rfl) _ _ hinv1
    dsimp only at hinv2
    rw [hinv2]
    rw [hmir]
    rfl

/-- Witness for C8: approving then rejecting report 1 of `dbC8` ends
with the report and the owning invoice both carrying the second
decision. -/
theorem C8_second_decision_witness :
    (update_approval_status dbC8 1 "approved" (some "ok")).1 = true ∧
    (update_approval_status (update_approval_status dbC8 1 "approved" (some "ok")).2
       1 "rejected" none).1 = true ∧
    getReportStatus (update_approval_status
       (update_approval_status dbC8 1 "approved" (some "ok")).2 1 "rejected" none).2 1
      = some "rejected" ∧
    getInvoiceStatus (update_approval_status
       (update_approval_status dbC8 1 "approved" (some "ok")).2 1 "rejected" none).2
      repPrev.invoice_id = some "rejected" :=
  C8_second_decision_wins dbC8 1 repPrev invC3 "approved" "rejected" (some "ok") none
    rfl rfl (Or.inl rfl) (Or.inr rfl) (by decide)

/-- Claim C2 (confirmed): every ValidationReport present after a
reconciliation run either pre-existed the run or was created by it with
approval status requires approval and a non-empty stored discrepancy
set, or with approval status auto approved and an empty stored
discrepancy set; no other creation-time approval status is possible. -/
theorem C2_report_status_invariant (db : DB) (iid : ℕ) :
    ∀ r ∈ (validate_invoice db iid).2.validation_reports,
      r ∈ db.validation_reports ∨
      (r.approval_status = "requires_approval" ∧ r.discrepancies ≠ none) ∨
      (r.approval_status = "auto_approved" ∧ r.discrepancies = none) := by
  intro r hr
  unfold validate_invoice at hr
  cases hfi : findInvoice db iid with
  | none =>
    rw [hfi] at hr
    exact Or.inl hr
  | some inv =>
    rw [hfi] at hr
    dsimp only at hr
    cases hfp : findPO db inv.po_number with
    | none =>
      rw [hfp] at hr
      exact Or.inl hr
    | some po =>
      rw [hfp] at hr
      dsimp only at hr
      rw [List.mem_append] at hr
      rcases hr with hr | hr
      · exact Or.inl hr
      · rw [List.mem_singleton] at hr
        subst hr
        right
        cases hds : (check_discrepancies po.vendor_name inv.vendor_name
            po.total_amount inv.total_amount).isEmpty with
        | true => right; simp [hds]
        | false => left; simp [hds]

/-- Witness for C2: instantiating the invariant at a run of `dbC8`
(whose invoice references an unresolvable purchase order, so the stored
report set is unchanged) and its stored report. -/
theorem C2_report_status_witness :
    repPrev ∈ (validate_invoice dbC8 1).2.validation_reports ∧
    (repPrev ∈ dbC8.validation_reports ∨
      (repPrev.approval_status = "requires_approval" ∧ repPrev.discrepancies ≠ none) ∨
      (repPrev.approval_status = "auto_approved" ∧ repPrev.discrepancies = none)) :=
  ⟨by decide, C2_report_status_invariant dbC8 1 repPrev (by decide)⟩

/-- Claim C1 (corrected): in reconciliation an amount discrepancy is
recorded iff both amounts are present and nonzero and the binary64
value of `abs(po_amount - invoice_amount)` strictly exceeds the binary64
value of the literal 0.01; the record carries exactly that binary64
absolute difference.  Because 100.01 and 0.01 are not exactly
representable, PO 100.00 against invoice 100.01 yields an amount
discrepancy with recorded difference 703687441777/2^46 (about
0.010000000000005116), and PO 100.00 against invoice 100.02 yields one
with recorded difference 1407374883553/2^46 (about 0.019999999999996),
which is not the binary64 value of 0.02. -/
theorem C1_amount_rule_float :
    (∀ (pv iv : Option String) (pa ia : Option ℤ),
      (check_discrepancies pv iv pa ia).any isAmountD =
        (truthyF pa && truthyF ia &&
          decide (c001 < pyAbsDiff (pa.getD 0) (ia.getD 0)))) ∧
    (∀ (pv iv : Option String) (pa ia : Option ℤ),
      (check_discrepancies pv iv pa ia).all (fun d =>
        match d with
        | Discrepancy.amount p i df =>
          p == pa.getD 0 && i == ia.getD 0 && df == pyAbsDiff (pa.getD 0) (ia.getD 0)
        | _ => true) = true) ∧
    (validate_invoice dbC1a 1).1.discs =
      [Discrepancy.amount (roundF 100 1) (roundF 10001 100) (703687441777 * 2 ^ 24)] ∧
    (validate_invoice dbC1b 1).1.discs =
      [Discrepancy.amount (roundF 100 1) (roundF 10002 100) (1407374883553 * 2 ^ 24)] ∧
    (1407374883553 * 2 ^ 24 : ℤ) ≠ roundF 2 100 := by
  refine ⟨?_, ?_, by decide, by decide, by decide⟩
  · intro pv iv pa ia
    unfold check_discrepancies
    cases hv : (truthyStr pv && truthyStr iv &&
        (pyLowerStr (pv.getD "") != pyLowerStr (iv.getD ""))) with
    | true =>
      cases ha : (truthyF pa && truthyF ia &&
          decide (c001 < pyAbsDiff (pa.getD 0) (ia.getD 0))) with
      | true => simp [hv, ha, isAmountD]
      | false => simp [hv, ha, isAmountD]
    | false =>
      cases ha : (truthyF pa && truthyF ia &&
          decide (c001 < pyAbsDiff (pa.getD 0) (ia.getD 0))) with
      | true => simp [hv, ha, isAmountD]
      | false => simp [hv, ha, isAmountD]
  · intro pv iv pa ia
    unfold check_discrepancies
    cases hv : (truthyStr pv && truthyStr iv &&
        (pyLowerStr (pv.getD "") != pyLowerStr (iv.getD ""))) with
    | true =>
      cases ha : (truthyF pa && truthyF ia &&
          decide (c001 < pyAbsDiff (pa.getD 0) (ia.getD 0))) with
      | true => simp [hv, ha]
      | false => simp [hv, ha]
    | false =>
      cases ha : (truthyF pa && truthyF ia &&
          decide (c001 < pyAbsDiff (pa.getD 0) (ia.getD 0))) with
      | true => simp [hv, ha]
      | false => simp [hv, ha]

/-- Counterexample for C1 as stated: reconciling PO amount 100.00
against invoice amount 100.01 does record an amount discrepancy, because
binary64 `abs(100.0 - 100.01)` exceeds binary64 `0.01`. -/
theorem C1_boundary_counterexample :
    (validate_invoice dbC1a 1).1.discs.any isAmountD = true ∧
    c001 < pyAbsDiff (roundF 100 1) (roundF 10001 100) := by
  exact ⟨by decide, by decide⟩

/-- Claim C4 (corrected): a vendor-name discrepancy is recorded iff both
vendor names are present and non-empty and their lower-cased forms
differ exactly — leading and trailing whitespace is NOT ignored.  In
particular `ABC Supplies` against `abc supplies` yields no discrepancy,
`ABC Supplies` against `ABC Corp` yields one, and `ABC Supplies`
against ` abc supplies ` (same name, padded) also yields one. -/
theorem C4_vendor_rule :
    (∀ (pv iv : Option String) (pa ia : Option ℤ),
      (check_discrepancies pv iv pa ia).any isVendorD =
        (truthyStr pv && truthyStr iv &&
          (pyLowerStr (pv.getD "") != pyLowerStr (iv.getD "")))) ∧
    (validate_invoice (dbVendor "abc supplies") 1).1.discs = [] ∧
    (validate_invoice (dbVendor "ABC Corp") 1).1.discs =
      [Discrepancy.vendor "ABC Supplies" "ABC Corp"] ∧
    (validate_invoice (dbVendor " abc supplies ") 1).1.discs =
      [Discrepancy.vendor "ABC Supplies" " abc supplies "] := by
  refine ⟨?_, by decide, by decide, by decide⟩
  intro pv iv pa ia
  unfold check_discrepancies
  cases hv : (truthyStr pv && truthyStr iv &&
      (pyLowerStr (pv.getD "") != pyLowerStr (iv.getD ""))) with
  | true =>
    cases ha : (truthyF pa && truthyF ia &&
        decide (c001 < pyAbsDiff (pa.getD 0) (ia.getD 0))) with
    | true => simp [hv, ha, isVendorD]
    | false => simp [hv, ha, isVendorD]
  | false =>
    cases ha : (truthyF pa && truthyF ia &&
        decide (c001 < pyAbsDiff (pa.getD 0) (ia.getD 0))) with
    | true => simp [hv, ha, isVendorD]
    | false => simp [hv, ha, isVendorD]

/-- Counterexample for C4 as stated: the claim ignores leading and
trailing whitespace, but reconciling vendor `ABC Supplies` against
` abc supplies` — names equal up to case after trimming — does record a
vendor discrepancy, because the code lower-cases without stripping. -/
theorem C4_whitespace_counterexample :
    (validate_invoice (dbVendor " abc supplies") 1).1.discs =
      [Discrepancy.vendor "ABC Supplies" " abc supplies"] ∧
    pyLowerStr (pyStrip "ABC Supplies") = pyLowerStr (pyStrip " abc supplies") := by
  exact ⟨by decide, by decide⟩

/-- Claim C10 (confirmed): field presence is tested by numeric
truthiness, so whenever the PO amount or the invoice amount is 0 no
amount discrepancy is recorded, however large the other amount is; a PO
of 0.00 reconciled against an invoice of 999999.00 is classified
validated with no discrepancy at all. -/
theorem C10_zero_amount_never_flagged :
    (∀ (pv iv : Option String) (x : Option ℤ),
      (check_discrepancies pv iv (some 0) x).any isAmountD = false ∧
      (check_discrepancies pv iv x (some 0)).any isAmountD = false) ∧
    (validate_invoice dbC10 1).1.vstatus = "validated" ∧
    (validate_invoice dbC10 1).1.discs = [] := by
  refine ⟨?_, by decide, by decide⟩
  intro pv iv x
  constructor
  · unfold check_discrepancies
    cases hv : (truthyStr pv && truthyStr iv &&
        (pyLowerStr (pv.getD "") != pyLowerStr (iv.getD ""))) with
    | true => simp [hv, truthyF, isAmountD]
    | false => simp [hv, truthyF, isAmountD]
  · unfold check_discrepancies
    cases hv : (truthyStr pv && truthyStr iv &&
        (pyLowerStr (pv.getD "") != pyLowerStr (iv.getD ""))) with
    | true => simp [hv, truthyF, isAmountD]
    | false => simp [hv, truthyF, isAmountD]

/-- Claim C5 (corrected): the detector returns false on every text with
fewer than two matched vocabulary terms PROVIDED the text does not also
satisfy both detector regexes (the `invoice # token` and `total digits`
patterns); that regex branch can fire with only one matched keyword. -/
theorem C5_low_keyword_gate (text : String)
    (h1 : keywordMatches text < 2)
    (h2 : (patDetectInvoice (pyLowerStr text) && patDetectTotal (pyLowerStr text)) = false) :
    is_potential_invoice text = false := by
  unfold is_potential_invoice
  dsimp only
  rw [if_neg (by omega : ¬ 3 ≤ keywordMatches text)]
  rw [if_neg (fun hc => absurd hc.1 (by omega : ¬ 2 ≤ keywordMatches text))]
  rw [if_neg (by simp [h2])]

/-- Witness for C5: the word `hello` has no matched keyword, satisfies
neither regex, and is rejected by the detector. -/
theorem C5_low_keyword_witness :
    keywordMatches "hello" < 2 ∧
    (patDetectInvoice (pyLowerStr "hello") && patDetectTotal (pyLowerStr "hello")) = false ∧
    is_potential_invoice "hello" = false :=
  ⟨by decide, by decide, C5_low_keyword_gate "hello" (by decide) (by decide)⟩

/-- Counterexample for C5 as stated: the text
`invoice # 5 total: 123` matches exactly one vocabulary term, yet the
detector returns true through its regex branch. -/
theorem C5_regex_branch_counterexample :
    is_potential_invoice c5text = true ∧ keywordMatches c5text = 1 := by
  exact ⟨by decide, by decide⟩

/-- Claim C6 (corrected): on the worked example text the extractor
returns invoice number 4412, but leaves `total_amount` unset: neither
the primary amount pattern nor its fallback can consume both the colon
and the dollar sign standing between the label and the digits in
`Total Amount: $1,250.00`. -/
theorem C6_extract_example :
    (extract_invoice_details_from_text c6text (some "inv.pdf") none none).invoice_number
      = some "4412" ∧
    (extract_invoice_details_from_text c6text (some "inv.pdf") none none).total_amount
      = none ∧
    patTotalAmount c6text = none ∧ patTotalAmountAlt c6text = none := by
  exact ⟨by decide, by decide, by decide, by decide⟩

/-- Counterexample for C6 as stated: the claim asserts
`total_amount == 1250.00` on the worked example, but the extractor
leaves the field unset there (and `none` differs from any parsed
value). -/
theorem C6_total_amount_counterexample :
    (extract_invoice_details_from_text c6text (some "inv.pdf") none none).total_amount
      = none ∧
    (none : Option ℤ) ≠ some (roundF 1250 1) := by
  exact ⟨by decide, by decide⟩

/-- Claim C9 (confirmed): for every input the extractor returns a total
result (the embedding is a total function, as the source has no raising
path); every field whose patterns do not match is left unset rather
than defaulted to a zero or empty-string sentinel, except that
`currency` defaults to USD and `status` is always pending. -/
theorem C9_extractor_defaults (text : String) (fp subj snd : Option String) :
    (extract_invoice_details_from_text text fp subj snd).status = "pending" ∧
    (patInvoiceNum text = none → patInvoiceNumAlt text = none →
      (extract_invoice_details_from_text text fp subj snd).invoice_number = none) ∧
    (patPONum text = none → patPONumAlt text = none →
      (extract_invoice_details_from_text text fp subj snd).purchase_order = none) ∧
    (patTotalAmount text = none → patTotalAmountAlt text = none →
      (extract_invoice_details_from_text text fp subj snd).total_amount = none) ∧
    (patDatePrimary text = none → patDateAlt text = none →
      (extract_invoice_details_from_text text fp subj snd).invoice_date = none) ∧
    (patVendor text = none → senderVendor snd = none →
      (extract_invoice_details_from_text text fp subj snd).vendor_name = none) ∧
    (patDueDate text = none →
      (extract_invoice_details_from_text text fp subj snd).due_date = none) ∧
    (patTax text = none →
      (extract_invoice_details_from_text text fp subj snd).tax_amount = none) ∧
    (patSubtotal text = none →
      (extract_invoice_details_from_text text fp subj snd).subtotal = none) ∧
    (patCurrency text = none → hasCharB text '$' = false → hasCharB text '€' = false →
      hasCharB text '£' = false →
      (extract_invoice_details_from_text text fp subj snd).currency = "USD") := by
  unfold extract_invoice_details_from_text
  refine ⟨rfl, ?_, ?_, ?_, ?_, ?_, ?_, ?_, ?_, ?_⟩
  · intro h1 h2; dsimp only; rw [h1, h2]
  · intro h1 h2; dsimp only; rw [h1, h2]
  · intro h1 h2; dsimp only; rw [h1, h2]; rfl
  · intro h1 h2; dsimp only; rw [h1, h2]
  · intro h1 h2; dsimp only; rw [h1, h2]
  · intro h1; dsimp only; rw [h1]
  · intro h1; dsimp only; rw [h1]; rfl
  · intro h1; dsimp only; rw [h1]; rfl
  · intro h1 h2 h3 h4; dsimp only; rw [h1, h2, h3, h4]; rfl

/-- Witness for C9: on the one-character text `q` every pattern fails,
so every field is unset, currency is USD and status is pending. -/
theorem C9_extractor_defaults_witness :
    (extract_invoice_details_from_text "q" none none none).status = "pending" ∧
    (extract_invoice_details_from_text "q" none none none).invoice_number = none ∧
    (extract_invoice_details_from_text "q" none none none).purchase_order = none ∧
    (extract_invoice_details_from_text "q" none none none).total_amount = none ∧
    (extract_invoice_details_from_text "q" none none none).invoice_date = none ∧
    (extract_invoice_details_from_text "q" none none none).vendor_name = none ∧
    (extract_invoice_details_from_text "q" none none none).due_date = none ∧
    (extract_invoice_details_from_text "q" none none none).tax_amount = none ∧
    (extract_invoice_details_from_text "q" none none none).subtotal = none ∧
    (extract_invoice_details_from_text "q" none none none).currency = "USD" :=
  ⟨(C9_extractor_defaults "q" none none none).1,
   (C9_extractor_defaults "q" none none none).2.1 rfl rfl,
   (C9_extractor_defaults "q" none none none).2.2.1 rfl rfl,
   (C9_extractor_defaults "q" none none none).2.2.2.1 rfl rfl,
   (C9_extractor_defaults "q" none none none).2.2.2.2.1 rfl rfl,
   (C9_extractor_defaults "q" none none none).2.2.2.2.2.1 rfl rfl,
   (C9_extractor_defaults "q" none none none).2.2.2.2.2.2.1 rfl,
   (C9_extractor_defaults "q" none none none).2.2.2.2.2.2.2.1 rfl,
   (C9_extractor_defaults "q" none none none).2.2.2.2.2.2.2.2.1 rfl,
   (C9_extractor_defaults "q" none none none).2.2.2.2.2.2.2.2.2 rfl rfl rfl rfl⟩
